import Mathlib

/-!
Verification of the shiftnotes backend (Django) against its specification.

The Python source is shallowly embedded: Django model rows become Lean
structures, querysets become filtered lists, and the view functions become
pure functions over an explicit `World` (the database state).  UUID primary
keys are modelled as natural numbers, dates as integers counting days, and
timestamps as integers counting seconds.
-/

namespace ShiftNotes

/-- User.ROLE_CHOICES in users/models.py. -/
inductive Role where
  | trainee
  | faculty
  | admin
  | leadership
  | systemAdmin
deriving DecidableEq, Repr

/-- Assessment.STATUS_CHOICES in assessments/models.py. -/
inductive Status where
  | draft
  | submitted
  | locked
deriving DecidableEq, Repr

/-- users.models.User (fields relevant to scoping and analytics). -/
structure UserRec where
  id : Nat
  role : Role
  organization : Option Nat := none
  program : Option Nat := none
  cohort : Option Nat := none
deriving DecidableEq, Repr

/-- assessments.models.Assessment.  `acknowledgedBy` is the many-to-many
read-state set used throughout views, serializers, admin and tests
(test_assessment_acknowledged_by_many_to_many); membership is set-like. -/
structure AssessmentRec where
  id : Nat
  traineeId : Nat
  evaluatorId : Nat
  shiftDate : Int
  location : String := ""
  status : Status
  privateComments : String := ""
  whatWentWell : String := ""
  whatCouldImprove : String := ""
  acknowledgedBy : List Nat := []
  createdAt : Int := 0
deriving DecidableEq, Repr

/-- assessments.models.AssessmentEPA (one rated EPA inside an assessment). -/
structure AssessmentEPARec where
  id : Nat
  assessmentId : Nat
  epaId : Nat
  entrustmentLevel : Nat
  whatWentWell : String := ""
  whatCouldImprove : String := ""
deriving DecidableEq, Repr

/-- curriculum.models.EPA (fields relevant to the claims). -/
structure EPARec where
  id : Nat
  programId : Nat
deriving DecidableEq, Repr

/-- curriculum.models.CoreCompetency. -/
structure CoreCompetencyRec where
  id : Nat
  programId : Nat
deriving DecidableEq, Repr

/-- curriculum.models.SubCompetency. -/
structure SubCompetencyRec where
  id : Nat
  programId : Nat
  coreCompetencyId : Nat
deriving DecidableEq, Repr

/-- curriculum.models.SubCompetencyEPA (explicit many-to-many join). -/
structure SubCompetencyEPARec where
  id : Nat
  subCompetencyId : Nat
  epaId : Nat
deriving DecidableEq, Repr

/-- The database state. -/
structure World where
  users : List UserRec := []
  assessments : List AssessmentRec := []
  assessmentEpas : List AssessmentEPARec := []
  epas : List EPARec := []
  coreCompetencies : List CoreCompetencyRec := []
  subCompetencies : List SubCompetencyRec := []
  subCompetencyEpas : List SubCompetencyEPARec := []
deriving Repr

/-- Foreign-key lookup of a user row by primary key. -/
def findUser (w : World) (uid : Nat) : Option UserRec :=
  w.users.find? (fun u => u.id == uid)

/-- `assessment.trainee.program` seen from an assessment row
(the `trainee__program` join path). -/
def traineeProgram (w : World) (a : AssessmentRec) : Option Nat :=
  (findUser w a.traineeId).bind (fun u => u.program)

/-- `assessment.trainee.cohort` (the `trainee__cohort` join path). -/
def traineeCohort (w : World) (a : AssessmentRec) : Option Nat :=
  (findUser w a.traineeId).bind (fun u => u.cohort)

/-- `queryset.filter(assessment_epas__epa_id=epa_id)`: the assessment has at
least one AssessmentEPA row for the given EPA. -/
def hasEpaRow (w : World) (aid epaId : Nat) : Bool :=
  w.assessmentEpas.any (fun r => r.assessmentId == aid && r.epaId == epaId)

/-- The optional query parameters of `GET /assessments`
(AssessmentViewSet.get_queryset).  A malformed date parameter is silently
ignored by the view, which is the same as the parameter being absent, so a
parsed-or-absent `Option` models each filter. -/
structure ListFilters where
  traineeId : Option Nat := none
  evaluatorId : Option Nat := none
  epaId : Option Nat := none
  startDate : Option Int := none
  endDate : Option Int := none
deriving Repr

/-- The chained `.filter(...)` calls of get_queryset after the role branch;
chaining single-valued filters in Django is conjunction, and the
`epa_id` filter with `.distinct()` is an existence test on the join. -/
def passesFilters (w : World) (f : ListFilters) (a : AssessmentRec) : Bool :=
  (match f.traineeId with | none => true | some t => a.traineeId == t) &&
  (match f.evaluatorId with | none => true | some e => a.evaluatorId == e) &&
  (match f.epaId with | none => true | some e => hasEpaRow w a.id e) &&
  (match f.startDate with | none => true | some d => decide (d ≤ a.shiftDate)) &&
  (match f.endDate with | none => true | some d => decide (a.shiftDate ≤ d))

/-- The role-based branch of AssessmentViewSet.get_queryset
(assessments/views.py lines 33-46), for a user whose program is `p`.
Admin/leadership: program isolation on the trainee AND
(submitted OR own draft).  Every other role (faculty, trainee, and also
system-admin, which is not in the `['admin', 'leadership']` list): the actor
is the trainee or the evaluator AND (submitted OR own draft). -/
def visibleToRoleBranch (user : UserRec) (w : World) (p : Nat) (a : AssessmentRec) : Bool :=
  if user.role == Role.admin || user.role == Role.leadership then
    traineeProgram w a == some p &&
      (a.status == Status.submitted ||
        (a.status == Status.draft && a.evaluatorId == user.id))
  else
    (a.traineeId == user.id || a.evaluatorId == user.id) &&
      (a.status == Status.submitted ||
        (a.status == Status.draft && a.evaluatorId == user.id))

/-- AssessmentViewSet.get_queryset: fail closed with the empty set when the
user has no program, otherwise the role branch followed by the optional
query-parameter filters. -/
def get_queryset (user : UserRec) (w : World) (f : ListFilters) : List AssessmentRec :=
  match user.program with
  | none => []
  | some p =>
      (w.assessments.filter (visibleToRoleBranch user w p)).filter (passesFilters w f)

lemma mem_get_queryset {user : UserRec} {w : World} {f : ListFilters} {p : Nat}
    (hp : user.program = some p) (a : AssessmentRec) :
    a ∈ get_queryset user w f ↔
      a ∈ w.assessments ∧ visibleToRoleBranch user w p a = true ∧
        passesFilters w f a = true := by
  unfold get_queryset
  rw [hp]
  simp only [List.mem_filter, and_assoc]

lemma visible_admin_leadership_iff {user : UserRec} {w : World} {p : Nat}
    (h : user.role = Role.admin ∨ user.role = Role.leadership) (a : AssessmentRec) :
    visibleToRoleBranch user w p a = true ↔
      (traineeProgram w a = some p ∧
        (a.status = Status.submitted ∨
          (a.status = Status.draft ∧ a.evaluatorId = user.id))) := by
  unfold visibleToRoleBranch
  rcases h with h | h <;>
    simp [h, Bool.and_eq_true, Bool.or_eq_true, beq_iff_eq]

lemma visible_other_iff {user : UserRec} {w : World} {p : Nat}
    (h : ¬ (user.role = Role.admin ∨ user.role = Role.leadership)) (a : AssessmentRec) :
    visibleToRoleBranch user w p a = true ↔
      ((a.traineeId = user.id ∨ a.evaluatorId = user.id) ∧
        (a.status = Status.submitted ∨
          (a.status = Status.draft ∧ a.evaluatorId = user.id))) := by
  push_neg at h
  unfold visibleToRoleBranch
  have h1 : (user.role == Role.admin) = false := by
    simp [beq_iff_eq]; exact h.1
  have h2 : (user.role == Role.leadership) = false := by
    simp [beq_iff_eq]; exact h.2
  simp [h1, h2, Bool.and_eq_true, Bool.or_eq_true, beq_iff_eq]

lemma passesFilters_default (w : World) (a : AssessmentRec) :
    passesFilters w {} a = true := rfl

/-- C1: for every actor with role admin or leadership and assigned program P,
every assessment in the list queryset has trainee.program = P and is either
submitted or the actor's own draft; no cross-program assessment is returned. -/
theorem C1_admin_leadership_program_isolation
    (user : UserRec) (w : World) (f : ListFilters) (p : Nat) (a : AssessmentRec)
    (hrole : user.role = Role.admin ∨ user.role = Role.leadership)
    (hprog : user.program = some p)
    (hmem : a ∈ get_queryset user w f) :
    traineeProgram w a = some p ∧
      (a.status = Status.submitted ∨
        (a.status = Status.draft ∧ a.evaluatorId = user.id)) := by
  rw [mem_get_queryset hprog] at hmem
  exact (visible_admin_leadership_iff hrole a).mp hmem.2.1

def c1User : UserRec := { id := 1, role := Role.admin, program := some 10 }

def c1Assessment : AssessmentRec :=
  { id := 100, traineeId := 2, evaluatorId := 3, shiftDate := 0,
    status := Status.submitted }

def c1World : World :=
  { users := [c1User,
      { id := 2, role := Role.trainee, program := some 10, cohort := some 1 },
      { id := 3, role := Role.faculty, program := some 10 }],
    assessments := [c1Assessment] }

theorem C1_witness :
    traineeProgram c1World c1Assessment = some 10 ∧
      (c1Assessment.status = Status.submitted ∨
        (c1Assessment.status = Status.draft ∧ c1Assessment.evaluatorId = c1User.id)) :=
  C1_admin_leadership_program_isolation c1User c1World {} 10 c1Assessment
    (Or.inl rfl) rfl (by decide)

/-- C2 counterexample: a system-admin with an assigned program does NOT see
every submitted assessment.  The submitted assessment below (trainee 2,
evaluator 3) is absent from the queryset resolved for system-admin user 1,
although the claim says the resolved set contains all submitted records. -/
def c2User : UserRec := { id := 1, role := Role.systemAdmin, program := some 10 }

def c2Assessment : AssessmentRec :=
  { id := 100, traineeId := 2, evaluatorId := 3, shiftDate := 0,
    status := Status.submitted }

def c2World : World :=
  { users := [c2User,
      { id := 2, role := Role.trainee, program := some 10, cohort := some 1 },
      { id := 3, role := Role.faculty, program := some 10 }],
    assessments := [c2Assessment] }

theorem C2_counterexample :
    c2User.role = Role.systemAdmin ∧ c2User.program = some 10 ∧
      c2Assessment.status = Status.submitted ∧
      c2Assessment ∈ c2World.assessments ∧
      c2Assessment ∉ get_queryset c2User c2World {} := by
  refine ⟨rfl, rfl, rfl, by decide, by decide⟩

/-- C2 (amended): a system-admin with an assigned program falls into the
non-admin branch of get_queryset and is scoped exactly like faculty/trainee:
the resolved set is the assessments where the actor is the trainee or the
evaluator, with status submitted or the actor's own draft.  Drafts of other
evaluators are still never included, but submitted assessments not involving
the actor are not visible either. -/
theorem C2_systemadmin_scoped_like_faculty
    (user : UserRec) (w : World) (p : Nat) (a : AssessmentRec)
    (hrole : user.role = Role.systemAdmin)
    (hprog : user.program = some p) :
    a ∈ get_queryset user w {} ↔
      a ∈ w.assessments ∧
        (a.traineeId = user.id ∨ a.evaluatorId = user.id) ∧
        (a.status = Status.submitted ∨
          (a.status = Status.draft ∧ a.evaluatorId = user.id)) := by
  rw [mem_get_queryset hprog]
  have hne : ¬ (user.role = Role.admin ∨ user.role = Role.leadership) := by
    rw [hrole]; rintro (h | h) <;> exact Role.noConfusion h
  simp [visible_other_iff hne, passesFilters_default]

theorem C2_witness :
    c2Assessment ∉ get_queryset c2User c2World {} := by
  have h := (C2_systemadmin_scoped_like_faculty c2User c2World 10 c2Assessment
    rfl rfl).not
  intro hmem
  have := h.mp
  rcases (C2_systemadmin_scoped_like_faculty c2User c2World 10 c2Assessment
    rfl rfl).mp hmem with ⟨_, hinv, _⟩
  rcases hinv with h2 | h2 <;> simp [c2Assessment, c2User] at h2

/-- C10: for an admin or leadership actor, an own draft is in the resolved
set only when the draft's trainee belongs to the actor's program: the
program-isolation filter is conjoined with the own-drafts disjunct, so an
own draft with a cross-program trainee is excluded, while one with an
in-program trainee is included. -/
theorem C10_own_draft_program_filtered
    (user : UserRec) (w : World) (p : Nat) (d : AssessmentRec)
    (hrole : user.role = Role.admin ∨ user.role = Role.leadership)
    (hprog : user.program = some p)
    (hdraft : d.status = Status.draft)
    (hown : d.evaluatorId = user.id) :
    (traineeProgram w d ≠ some p → d ∉ get_queryset user w {}) ∧
      (d ∈ w.assessments → traineeProgram w d = some p →
        d ∈ get_queryset user w {}) := by
  constructor
  · intro hne hmem
    rw [mem_get_queryset hprog] at hmem
    exact hne ((visible_admin_leadership_iff hrole d).mp hmem.2.1).1
  · intro hdb hpr
    rw [mem_get_queryset hprog]
    exact ⟨hdb, (visible_admin_leadership_iff hrole d).mpr
      ⟨hpr, Or.inr ⟨hdraft, hown⟩⟩, passesFilters_default w d⟩

def c10User : UserRec := { id := 1, role := Role.leadership, program := some 10 }

def c10Draft : AssessmentRec :=
  { id := 101, traineeId := 4, evaluatorId := 1, shiftDate := 0,
    status := Status.draft }

def c10World : World :=
  { users := [c10User,
      { id := 4, role := Role.trainee, program := some 99, cohort := some 2 }],
    assessments := [c10Draft] }

theorem C10_witness :
    c10Draft ∉ get_queryset c10User c10World {} :=
  (C10_own_draft_program_filtered c10User c10World 10 c10Draft
    (Or.inr rfl) rfl rfl rfl).1 (by decide)

/-- The two error codes of the lifecycle guard in
AssessmentViewSet.update / partial_update / destroy; `tooOld` carries the
`days_old` and `max_age_days` fields of the JSON error body. -/
inductive ModError where
  | notEvaluator
  | tooOld (daysOld : Int) (maxAgeDays : Int)
deriving DecidableEq, Repr

inductive WriteOutcome where
  | ok
  | rejected (e : ModError)
  | notFound
deriving DecidableEq, Repr

/-- The guard shared verbatim by update, partial_update and destroy
(assessments/views.py lines 94-118, 130-154, 168-192): first the evaluator
check, then `assessment_age > timedelta(days=7)` with
`days_old = assessment_age.days` (floor division of seconds by 86400, which
is Python's `//`, i.e. `Int.fdiv`). -/
def lifecycleCheck (userId : Nat) (a : AssessmentRec) (now : Int) : Option ModError :=
  if a.evaluatorId ≠ userId then some ModError.notEvaluator
  else
    if now - a.createdAt > 7 * 86400 then
      some (ModError.tooOld (Int.fdiv (now - a.createdAt) 86400) 7)
    else none

/-- The writable fields of AssessmentSerializer used by PUT/PATCH. -/
structure AssessmentUpdate where
  traineeId : Nat
  evaluatorId : Nat
  shiftDate : Int
  location : String := ""
  status : Status
  privateComments : String := ""
  whatWentWell : String := ""
  whatCouldImprove : String := ""
  acknowledgedBy : List Nat := []
deriving DecidableEq, Repr

/-- serializer.save() on update: writable fields are replaced, `id` and the
auto fields (`created_at`) are untouched. -/
def applyUpdate (u : AssessmentUpdate) (a : AssessmentRec) : AssessmentRec :=
  { a with
    traineeId := u.traineeId
    evaluatorId := u.evaluatorId
    shiftDate := u.shiftDate
    location := u.location
    status := u.status
    privateComments := u.privateComments
    whatWentWell := u.whatWentWell
    whatCouldImprove := u.whatCouldImprove
    acknowledgedBy := u.acknowledgedBy }

/-- AssessmentViewSet.update / partial_update, modelled at the view-method
level: the object has been fetched, the guard runs, and only if it passes is
the record mutated.  On rejection the store is returned unchanged together
with the error body. -/
def updateAssessment (user : UserRec) (aid : Nat) (u : AssessmentUpdate)
    (now : Int) (w : World) : World × WriteOutcome :=
  match w.assessments.find? (fun x => x.id == aid) with
  | none => (w, WriteOutcome.notFound)
  | some a =>
      match lifecycleCheck user.id a now with
      | some e => (w, WriteOutcome.rejected e)
      | none =>
          ({ w with assessments :=
              w.assessments.map (fun x => if x.id == aid then applyUpdate u x else x) },
            WriteOutcome.ok)

/-- AssessmentViewSet.destroy: same guard; deletion cascades to the
AssessmentEPA rows (FK `on_delete=CASCADE`). -/
def destroyAssessment (user : UserRec) (aid : Nat) (now : Int) (w : World) :
    World × WriteOutcome :=
  match w.assessments.find? (fun x => x.id == aid) with
  | none => (w, WriteOutcome.notFound)
  | some a =>
      match lifecycleCheck user.id a now with
      | some e => (w, WriteOutcome.rejected e)
      | none =>
          ({ w with
              assessments := w.assessments.filter (fun x => x.id != aid)
              assessmentEpas := w.assessmentEpas.filter (fun r => r.assessmentId != aid) },
            WriteOutcome.ok)

lemma lifecycleCheck_none_iff (uid : Nat) (a : AssessmentRec) (now : Int) :
    lifecycleCheck uid a now = none ↔
      (a.evaluatorId = uid ∧ now - a.createdAt ≤ 7 * 86400) := by
  unfold lifecycleCheck
  by_cases hev : a.evaluatorId = uid
  · by_cases hage : now - a.createdAt > 7 * 86400
    · simp [hev, hage]
    · simp [hev, hage]
  · simp [hev]

lemma lifecycleCheck_notEvaluator (uid : Nat) (a : AssessmentRec) (now : Int)
    (h : a.evaluatorId ≠ uid) :
    lifecycleCheck uid a now = some ModError.notEvaluator := by
  unfold lifecycleCheck
  simp [h]

lemma lifecycleCheck_tooOld (uid : Nat) (a : AssessmentRec) (now : Int)
    (hev : a.evaluatorId = uid) (hage : now - a.createdAt > 7 * 86400) :
    lifecycleCheck uid a now =
      some (ModError.tooOld (Int.fdiv (now - a.createdAt) 86400) 7) := by
  unfold lifecycleCheck
  rw [if_neg (by simpa using hev), if_pos hage]

/-- C3: update and delete succeed exactly when the actor is the evaluator and
the record is at most 7 days old; rejection leaves the store unchanged and
carries `not_evaluator` when the actor is not the evaluator, otherwise
`too_old` with the computed `days_old` and `max_age_days = 7`.  In
particular an assessment aged 7 days + 1 second is rejected (as `too_old`
with `days_old = 7`) and one aged 6 days 23 hours is accepted. -/
theorem C3_lifecycle_guard
    (user : UserRec) (w : World) (aid : Nat) (u : AssessmentUpdate) (now : Int)
    (a : AssessmentRec)
    (hfind : w.assessments.find? (fun x => x.id == aid) = some a) :
    ((updateAssessment user aid u now w).2 = WriteOutcome.ok ↔
      (a.evaluatorId = user.id ∧ now - a.createdAt ≤ 7 * 86400)) ∧
    ((destroyAssessment user aid now w).2 = WriteOutcome.ok ↔
      (a.evaluatorId = user.id ∧ now - a.createdAt ≤ 7 * 86400)) ∧
    (a.evaluatorId ≠ user.id →
      updateAssessment user aid u now w = (w, WriteOutcome.rejected ModError.notEvaluator) ∧
      destroyAssessment user aid now w = (w, WriteOutcome.rejected ModError.notEvaluator)) ∧
    (a.evaluatorId = user.id → now - a.createdAt > 7 * 86400 →
      updateAssessment user aid u now w =
        (w, WriteOutcome.rejected
          (ModError.tooOld (Int.fdiv (now - a.createdAt) 86400) 7)) ∧
      destroyAssessment user aid now w =
        (w, WriteOutcome.rejected
          (ModError.tooOld (Int.fdiv (now - a.createdAt) 86400) 7))) ∧
    (now - a.createdAt = 7 * 86400 + 1 → a.evaluatorId = user.id →
      updateAssessment user aid u now w =
        (w, WriteOutcome.rejected (ModError.tooOld 7 7)) ∧
      destroyAssessment user aid now w =
        (w, WriteOutcome.rejected (ModError.tooOld 7 7))) ∧
    (now - a.createdAt = 6 * 86400 + 23 * 3600 → a.evaluatorId = user.id →
      (updateAssessment user aid u now w).2 = WriteOutcome.ok ∧
      (destroyAssessment user aid now w).2 = WriteOutcome.ok) := by
  have hup : ∀ r, lifecycleCheck user.id a now = r →
      (updateAssessment user aid u now w).2 =
        (match r with
          | some e => WriteOutcome.rejected e
          | none => WriteOutcome.ok) := by
    intro r hr
    simp only [updateAssessment, hfind, hr]
    cases r <;> rfl
  have hupFull : ∀ e, lifecycleCheck user.id a now = some e →
      updateAssessment user aid u now w = (w, WriteOutcome.rejected e) := by
    intro e he
    simp only [updateAssessment, hfind, he]
  have hdes : ∀ r, lifecycleCheck user.id a now = r →
      (destroyAssessment user aid now w).2 =
        (match r with
          | some e => WriteOutcome.rejected e
          | none => WriteOutcome.ok) := by
    intro r hr
    simp only [destroyAssessment, hfind, hr]
    cases r <;> rfl
  have hdesFull : ∀ e, lifecycleCheck user.id a now = some e →
      destroyAssessment user aid now w = (w, WriteOutcome.rejected e) := by
    intro e he
    simp only [destroyAssessment, hfind, he]
  have hokIff : (updateAssessment user aid u now w).2 = WriteOutcome.ok ↔
      (a.evaluatorId = user.id ∧ now - a.createdAt ≤ 7 * 86400) := by
    rw [← lifecycleCheck_none_iff user.id a now]
    constructor
    · intro hok
      cases hr : lifecycleCheck user.id a now with
      | none => rfl
      | some e => rw [hup (some e) hr] at hok; cases hok
    · intro hnone
      exact hup none hnone
  have hokIffD : (destroyAssessment user aid now w).2 = WriteOutcome.ok ↔
      (a.evaluatorId = user.id ∧ now - a.createdAt ≤ 7 * 86400) := by
    rw [← lifecycleCheck_none_iff user.id a now]
    constructor
    · intro hok
      cases hr : lifecycleCheck user.id a now with
      | none => rfl
      | some e => rw [hdes (some e) hr] at hok; cases hok
    · intro hnone
      exact hdes none hnone
  refine ⟨hokIff, hokIffD, ?_, ?_, ?_, ?_⟩
  · intro hne
    exact ⟨hupFull _ (lifecycleCheck_notEvaluator user.id a now hne),
      hdesFull _ (lifecycleCheck_notEvaluator user.id a now hne)⟩
  · intro hev hage
    exact ⟨hupFull _ (lifecycleCheck_tooOld user.id a now hev hage),
      hdesFull _ (lifecycleCheck_tooOld user.id a now hev hage)⟩
  · intro hage hev
    have h1 : now - a.createdAt > 7 * 86400 := by omega
    have h2 : Int.fdiv (now - a.createdAt) 86400 = 7 := by
      rw [hage]; decide
    have := hupFull _ (lifecycleCheck_tooOld user.id a now hev h1)
    have hd := hdesFull _ (lifecycleCheck_tooOld user.id a now hev h1)
    rw [h2] at this hd
    exact ⟨this, hd⟩
  · intro hage hev
    have hle : now - a.createdAt ≤ 7 * 86400 := by omega
    exact ⟨hokIff.mpr ⟨hev, hle⟩, hokIffD.mpr ⟨hev, hle⟩⟩

def c3User : UserRec := { id := 3, role := Role.faculty, program := some 10 }

def c3Assessment : AssessmentRec :=
  { id := 100, traineeId := 2, evaluatorId := 3, shiftDate := 0,
    status := Status.submitted, createdAt := 0 }

def c3World : World := { assessments := [c3Assessment] }

def c3Update : AssessmentUpdate :=
  { traineeId := 2, evaluatorId := 3, shiftDate := 1, status := Status.submitted }

theorem C3_witness :
    updateAssessment c3User 100 c3Update 604801 c3World =
      (c3World, WriteOutcome.rejected (ModError.tooOld 7 7)) ∧
    destroyAssessment c3User 100 604801 c3World =
      (c3World, WriteOutcome.rejected (ModError.tooOld 7 7)) :=
  (C3_lifecycle_guard c3User c3World 100 c3Update 604801 c3Assessment
    (by decide)).2.2.2.2.1 (by decide) rfl

/-- The per-row payload of `assessment_epas` in AssessmentCreateSerializer;
the primary key drawn by `uuid4` is modelled as a caller-supplied fresh id. -/
structure EpaInput where
  id : Nat
  epaId : Nat
  entrustmentLevel : Nat
  whatWentWell : String := ""
  whatCouldImprove : String := ""
deriving DecidableEq, Repr

/-- One `AssessmentEPA.objects.create(...)`: a single committed INSERT
(Django autocommit; there is no transaction.atomic in the serializer and no
ATOMIC_REQUESTS in settings).  The INSERT fails when the
`unique_together = [['assessment', 'epa']]` constraint is violated. -/
def insertEpaRow (w : World) (row : AssessmentEPARec) : Option World :=
  if w.assessmentEpas.any (fun r => r.assessmentId == row.assessmentId && r.epaId == row.epaId)
  then none
  else some { w with assessmentEpas := w.assessmentEpas ++ [row] }

/-- The `for epa_data in assessment_epas_data:` loop of
AssessmentCreateSerializer.create.  On an IntegrityError the exception
propagates and everything already committed stays committed. -/
def createChildren (aid : Nat) (rows : List EpaInput) (w : World) : World × Bool :=
  match rows with
  | [] => (w, true)
  | r :: rest =>
      match insertEpaRow w
        { id := r.id, assessmentId := aid, epaId := r.epaId,
          entrustmentLevel := r.entrustmentLevel,
          whatWentWell := r.whatWentWell, whatCouldImprove := r.whatCouldImprove } with
      | none => (w, false)
      | some w2 => createChildren aid rest w2

/-- AssessmentCreateSerializer.create (assessments/serializers.py lines
102-109): the parent Assessment is committed first, then each child row in
its own commit; `true` means every row was persisted. -/
def createAssessment (parent : AssessmentRec) (rows : List EpaInput) (w : World) :
    World × Bool :=
  createChildren parent.id rows { w with assessments := w.assessments ++ [parent] }

def c7Parent : AssessmentRec :=
  { id := 10, traineeId := 2, evaluatorId := 3, shiftDate := 0,
    status := Status.submitted }

def c7Rows : List EpaInput :=
  [{ id := 100, epaId := 1, entrustmentLevel := 3 },
   { id := 101, epaId := 1, entrustmentLevel := 5 }]

/-- C7: creation is NOT atomic.  A create request whose `assessment_epas`
list names the same EPA twice fails on the second child INSERT (the
`(assessment, epa)` uniqueness constraint), yet the parent Assessment and
the first child row remain persisted — an orphaned partial parent is left
visible, contradicting the all-or-nothing requirement. -/
theorem C7_create_not_atomic :
    (createAssessment c7Parent c7Rows {}).2 = false ∧
    c7Parent ∈ (createAssessment c7Parent c7Rows {}).1.assessments ∧
    (createAssessment c7Parent c7Rows {}).1.assessmentEpas =
      [{ id := 100, assessmentId := 10, epaId := 1, entrustmentLevel := 3 }] := by
  refine ⟨rfl, by decide, rfl⟩

/-- `user.role in ['leadership', 'admin']` — the mailbox eligibility check. -/
def isLeadershipOrAdmin (u : UserRec) : Bool :=
  u.role == Role.leadership || u.role == Role.admin

/-- `assessment.acknowledged_by.add(user)`: many-to-many insertion, a no-op
when the user is already a member. -/
def addAck (uid : Nat) (a : AssessmentRec) : AssessmentRec :=
  if uid ∈ a.acknowledgedBy then a
  else { a with acknowledgedBy := a.acknowledgedBy ++ [uid] }

inductive MarkReadOutcome where
  | marked
  | forbidden
deriving DecidableEq, Repr

/-- AssessmentViewSet.mark_read (assessments/views.py lines 508-524):
leadership/admin only; adds the current user to `acknowledged_by` of the
addressed assessment and reports success. -/
def markRead (user : UserRec) (aid : Nat) (w : World) : World × MarkReadOutcome :=
  if isLeadershipOrAdmin user then
    ({ w with assessments :=
        w.assessments.map (fun a => if a.id == aid then addAck user.id a else a) },
      MarkReadOutcome.marked)
  else (w, MarkReadOutcome.forbidden)

/-- The mailbox predicate of mailbox_count: non-empty private comments,
submitted, and not yet acknowledged by the current user. -/
def isSensitiveUnread (user : UserRec) (a : AssessmentRec) : Bool :=
  a.privateComments != "" && a.status == Status.submitted &&
    !(a.acknowledgedBy.contains user.id)

/-- AssessmentViewSet.mailbox_count (assessments/views.py lines 526-553):
0 for non-leadership roles; otherwise the count of sensitive unread
assessments, restricted to the user's program when one is assigned. -/
def unreadCount (user : UserRec) (w : World) : Nat :=
  if isLeadershipOrAdmin user then
    match user.program with
    | some p =>
        (w.assessments.filter
          (fun a => isSensitiveUnread user a && traineeProgram w a == some p)).length
    | none => (w.assessments.filter (isSensitiveUnread user)).length
  else 0

lemma addAck_id (uid : Nat) (a : AssessmentRec) : (addAck uid a).id = a.id := by
  unfold addAck
  split <;> rfl

lemma mem_addAck (uid : Nat) (a : AssessmentRec) :
    uid ∈ (addAck uid a).acknowledgedBy := by
  unfold addAck
  split
  · assumption
  · simp

lemma addAck_idem (uid : Nat) (a : AssessmentRec) :
    addAck uid (addAck uid a) = addAck uid a := by
  by_cases h : uid ∈ a.acknowledgedBy <;> simp [addAck, h]

lemma markStep_map_idem (uid aid : Nat) (l : List AssessmentRec) :
    (l.map (fun a => if a.id == aid then addAck uid a else a)).map
      (fun a => if a.id == aid then addAck uid a else a) =
    l.map (fun a => if a.id == aid then addAck uid a else a) := by
  induction l with
  | nil => rfl
  | cons b t ih =>
      simp only [List.map_cons, ih, List.cons.injEq, and_true]
      by_cases hb : b.id = aid
      · simp [hb, addAck_id, addAck_idem]
      · simp [hb]

/-- C9: mark_read is idempotent for every eligible leadership or admin
actor: the first call adds the actor to `acknowledged_by`, the second call
succeeds, changes nothing, and leaves `unread_count` unchanged. -/
theorem C9_markRead_idempotent
    (user : UserRec) (w : World) (aid : Nat)
    (hrole : user.role = Role.leadership ∨ user.role = Role.admin) :
    ((markRead user aid w).2 = MarkReadOutcome.marked) ∧
    (∀ a ∈ (markRead user aid w).1.assessments, a.id = aid →
      user.id ∈ a.acknowledgedBy) ∧
    (markRead user aid (markRead user aid w).1 =
      ((markRead user aid w).1, MarkReadOutcome.marked)) ∧
    (unreadCount user (markRead user aid (markRead user aid w).1).1 =
      unreadCount user (markRead user aid w).1) := by
  have hlead : isLeadershipOrAdmin user = true := by
    unfold isLeadershipOrAdmin
    rcases hrole with h | h <;> simp [h]
  have hmark : ∀ v : World, markRead user aid v =
      ({ v with assessments :=
          v.assessments.map (fun a => if a.id == aid then addAck user.id a else a) },
        MarkReadOutcome.marked) := by
    intro v
    unfold markRead
    rw [if_pos hlead]
  have hsecond :
      markRead user aid (markRead user aid w).1 =
        ((markRead user aid w).1, MarkReadOutcome.marked) := by
    simp only [hmark, Prod.mk.injEq, and_true]
    congr 1
    exact markStep_map_idem user.id aid w.assessments
  refine ⟨?_, ?_, hsecond, ?_⟩
  · rw [hmark w]
  · intro a ha haid
    rw [hmark w] at ha
    simp only [List.mem_map] at ha
    obtain ⟨b, _, hba⟩ := ha
    by_cases hb : b.id = aid
    · have haddb : a = addAck user.id b := by
        rw [← hba]; simp [hb]
      rw [haddb]
      exact mem_addAck user.id b
    · have hbb : (b.id == aid) = false := by simp [hb]
      rw [← hba] at haid
      simp [hbb] at haid
      exact absurd haid hb
  · rw [hsecond]

def c9User : UserRec := { id := 7, role := Role.leadership, program := some 10 }

def c9Assessment : AssessmentRec :=
  { id := 100, traineeId := 2, evaluatorId := 3, shiftDate := 0,
    status := Status.submitted, privateComments := "concern" }

def c9World : World :=
  { users := [c9User, { id := 2, role := Role.trainee, program := some 10, cohort := some 1 }],
    assessments := [c9Assessment] }

theorem C9_witness :
    markRead c9User 100 (markRead c9User 100 c9World).1 =
      ((markRead c9User 100 c9World).1, MarkReadOutcome.marked) ∧
    unreadCount c9User (markRead c9User 100 (markRead c9User 100 c9World).1).1 =
      unreadCount c9User (markRead c9User 100 c9World).1 :=
  ⟨(C9_markRead_idempotent c9User c9World 100 (Or.inl rfl)).2.2.1,
    (C9_markRead_idempotent c9User c9World 100 (Or.inl rfl)).2.2.2⟩

/-- `Avg('assessment_epas__entrustment_level')` over a list of entrustment
levels: `sum / count`, and SQL NULL (`none`) when the row set is empty. -/
def ratAvg (l : List Nat) : Option ℚ :=
  match l with
  | [] => none
  | _ => some ((l.map (fun n : Nat => (n : ℚ))).sum / (l.length : ℚ))

lemma length_le_sum_natCast (l : List Nat) (h : ∀ n ∈ l, 1 ≤ n) :
    (l.length : ℚ) ≤ (l.map (fun n : Nat => (n : ℚ))).sum := by
  induction l with
  | nil => simp
  | cons a t ih =>
      simp only [List.map_cons, List.sum_cons, List.length_cons]
      have ha : (1 : ℚ) ≤ (a : ℚ) := by
        exact_mod_cast h a (List.mem_cons_self a t)
      have ht := ih (fun n hn => h n (List.mem_cons_of_mem a hn))
      have hcast : ((t.length + 1 : ℕ) : ℚ) = (t.length : ℚ) + 1 := by
        push_cast
        ring
      rw [hcast]
      linarith

lemma ratAvg_ge_one {l : List Nat} {v : ℚ} (h : ∀ n ∈ l, 1 ≤ n)
    (hv : ratAvg l = some v) : 1 ≤ v := by
  match l, hv with
  | a :: t, hv =>
      have hv' : ((a :: t).map (fun n : Nat => (n : ℚ))).sum / (((a :: t).length : ℚ)) = v := by
        simpa [ratAvg] using hv
      have hlen : (0 : ℚ) < ((a :: t).length : ℚ) := by
        exact_mod_cast t.length.succ_pos
      rw [← hv', one_le_div hlen]
      exact length_le_sum_natCast _ h

/-- Python 3 `round` on an exact rational: round half to even (the mode CPython
uses for `round(float)` and `round(float, ndigits)`). -/
def pyRound (q : ℚ) : ℤ :=
  if Int.fract q = 1 / 2 then (if Even ⌊q⌋ then ⌊q⌋ else ⌊q⌋ + 1) else round q

lemma abs_pyRound_sub_le (q : ℚ) : |(pyRound q : ℚ) - q| ≤ 1 / 2 := by
  unfold pyRound
  by_cases h : Int.fract q = 1 / 2
  · have hq : q - (⌊q⌋ : ℚ) = 1 / 2 := by
      rw [Int.self_sub_floor]; exact h
    rw [if_pos h]
    by_cases he : Even ⌊q⌋
    · rw [if_pos he, abs_sub_comm, abs_of_nonneg (by linarith)]
      linarith
    · rw [if_neg he]
      push_cast
      rw [abs_of_nonneg (by linarith)]
      linarith
  · rw [if_neg h, abs_sub_comm]
    exact abs_sub_round q

/-- Python `round(x, 2)`, the presentation-time 2-decimal rounding. -/
def round2 (q : ℚ) : ℚ := (pyRound (q * 100) : ℚ) / 100

lemma round2_zero : round2 0 = 0 := by
  have h0 : Int.fract ((0 : ℚ) * 100) ≠ 1 / 2 := by
    rw [zero_mul, Int.fract_zero]; norm_num
  unfold round2 pyRound
  rw [if_neg h0, zero_mul, round_zero]
  norm_num

lemma round2_pos {v : ℚ} (h : 1 ≤ v) : 0 < round2 v := by
  have hb := abs_le.mp (abs_pyRound_sub_le (v * 100))
  have hpos : (0 : ℚ) < (pyRound (v * 100) : ℚ) := by linarith [hb.1]
  unfold round2
  exact div_pos hpos (by norm_num)

/-- Milestone tier mapping of competency_grid_data (analytics/views.py lines
598-601): `min(5.0, max(1.0, round(avg_entrustment * 2) / 2))`. -/
def milestoneLevel (avg : ℚ) : ℚ :=
  min 5 (max 1 ((pyRound (avg * 2) : ℚ) / 2))

/-- C6: the milestone tier is the average rounded to the nearest multiple of
0.5 and clamped to [1, 5]: it is a half-integer in [1, 5] at distance at
most that of any other half-integer from the average; in particular
4.8 maps to 5.0, 1.1 to 1.0, 3.24 to 3.0 and 3.26 to 3.5. -/
theorem C6_milestone_tier :
    (milestoneLevel (24/5) = 5 ∧ milestoneLevel (11/10) = 1 ∧
      milestoneLevel (81/25) = 3 ∧ milestoneLevel (163/50) = 7/2) ∧
    ∀ avg : ℚ, 1 ≤ avg → avg ≤ 5 →
      (∃ k : ℤ, milestoneLevel avg = (k : ℚ) / 2) ∧
      1 ≤ milestoneLevel avg ∧ milestoneLevel avg ≤ 5 ∧
      ∀ k : ℤ, |milestoneLevel avg - avg| ≤ |(k : ℚ) / 2 - avg| := by
  constructor
  · refine ⟨?_, ?_, ?_, ?_⟩
    · unfold milestoneLevel pyRound
      rw [show (24/5 : ℚ) * 2 = 48/5 by norm_num]
      rw [if_neg (by rw [Int.fract]; norm_num [Int.floor_eq_iff])]
      rw [show round (48/5 : ℚ) = 10 by rw [round_eq]; norm_num [Int.floor_eq_iff]]
      norm_num
    · unfold milestoneLevel pyRound
      rw [show (11/10 : ℚ) * 2 = 11/5 by norm_num]
      rw [if_neg (by rw [Int.fract]; norm_num [Int.floor_eq_iff])]
      rw [show round (11/5 : ℚ) = 2 by rw [round_eq]; norm_num [Int.floor_eq_iff]]
      norm_num
    · unfold milestoneLevel pyRound
      rw [show (81/25 : ℚ) * 2 = 162/25 by norm_num]
      rw [if_neg (by rw [Int.fract]; norm_num [Int.floor_eq_iff])]
      rw [show round (162/25 : ℚ) = 6 by rw [round_eq]; norm_num [Int.floor_eq_iff]]
      norm_num
    · unfold milestoneLevel pyRound
      rw [show (163/50 : ℚ) * 2 = 163/25 by norm_num]
      rw [if_neg (by rw [Int.fract]; norm_num [Int.floor_eq_iff])]
      rw [show round (163/25 : ℚ) = 7 by rw [round_eq]; norm_num [Int.floor_eq_iff]]
      norm_num
  · intro avg h1 h5
    set r := pyRound (avg * 2) with hr
    have hb := abs_le.mp (abs_pyRound_sub_le (avg * 2))
    have hr2 : (2 : ℤ) ≤ r := by
      by_contra hcon
      push_neg at hcon
      have hle : r ≤ 1 := by omega
      have : (r : ℚ) ≤ 1 := by exact_mod_cast hle
      linarith [hb.1]
    have hr10 : r ≤ (10 : ℤ) := by
      by_contra hcon
      push_neg at hcon
      have hge : (11 : ℤ) ≤ r := by omega
      have : (11 : ℚ) ≤ (r : ℚ) := by exact_mod_cast hge
      linarith [hb.2]
    have hx1 : (1 : ℚ) ≤ (r : ℚ) / 2 := by
      have : (2 : ℚ) ≤ (r : ℚ) := by exact_mod_cast hr2
      linarith
    have hx5 : (r : ℚ) / 2 ≤ 5 := by
      have : (r : ℚ) ≤ 10 := by exact_mod_cast hr10
      linarith
    have hclamp : milestoneLevel avg = (r : ℚ) / 2 := by
      unfold milestoneLevel
      rw [← hr, max_eq_right hx1, min_eq_right hx5]
    have hdist : |milestoneLevel avg - avg| ≤ 1 / 4 := by
      rw [hclamp, abs_le]
      constructor
      · linarith [hb.1]
      · linarith [hb.2]
    refine ⟨⟨r, hclamp⟩, by rw [hclamp]; exact hx1, by rw [hclamp]; exact hx5, ?_⟩
    intro k
    by_cases hk : k = r
    · rw [hk, ← hclamp]
    · have hne : k - r ≠ 0 := sub_ne_zero.mpr hk
      have h1' : (1 : ℤ) ≤ |k - r| := Int.one_le_abs hne
      have hkr : (1 : ℚ) ≤ |(k : ℚ) - (r : ℚ)| := by
        rw [← Int.cast_sub, ← Int.cast_abs]
        exact_mod_cast h1'
      have hhalf : (1 : ℚ) / 2 ≤ |(k : ℚ) / 2 - (r : ℚ) / 2| := by
        rw [show (k : ℚ) / 2 - (r : ℚ) / 2 = ((k : ℚ) - (r : ℚ)) / 2 by ring,
          abs_div, abs_two]
        linarith
      have htri : |(k : ℚ) / 2 - (r : ℚ) / 2| ≤
          |(k : ℚ) / 2 - avg| + |avg - (r : ℚ) / 2| := abs_sub_le _ _ _
      have h2 : |avg - (r : ℚ) / 2| ≤ 1 / 4 := by
        rw [abs_sub_comm]
        rw [hclamp] at hdist
        exact hdist
      calc |milestoneLevel avg - avg| ≤ 1 / 4 := hdist
        _ ≤ |(k : ℚ) / 2 - avg| := by linarith

theorem C6_witness :
    (∃ k : ℤ, milestoneLevel 3 = (k : ℚ) / 2) ∧ 1 ≤ milestoneLevel 3 ∧
      milestoneLevel 3 ≤ 5 ∧ ∀ k : ℤ, |milestoneLevel 3 - 3| ≤ |(k : ℚ) / 2 - 3| :=
  C6_milestone_tier.2 3 (by norm_num) (by norm_num)

/-- The per-trainee filter of competency_grid_data (lines 542-559):
`Q(trainee=trainee, status='submitted')` plus the optional inclusive
shift_date window. -/
def gridScope (tid : Nat) (sd ed : Option Int) (a : AssessmentRec) : Bool :=
  a.traineeId == tid && a.status == Status.submitted &&
  (match sd with | none => true | some d => decide (d ≤ a.shiftDate)) &&
  (match ed with | none => true | some d => decide (a.shiftDate ≤ d))

/-- `EPA.objects.filter(sub_competency_epas__sub_competency=sub, program=p)`:
the EPA is mapped to the sub-competency through the join table and belongs
to the program. -/
def epaMappedToSub (w : World) (progId subId epaId : Nat) : Bool :=
  (w.subCompetencyEpas.any (fun m => m.subCompetencyId == subId && m.epaId == epaId)) &&
  (w.epas.any (fun e => e.id == epaId && e.programId == progId))

/-- The AssessmentEPA rows feeding one Sub-Competency average in
competency_grid_data: rows of the trainee's submitted (date-filtered)
assessments whose EPA is mapped to the sub-competency.  Django reuses the
join of `.filter(assessment_epas__epa__in=mapped_epas)` for the following
`Avg('assessment_epas__entrustment_level')`, so the aggregate runs over the
mapped rows. -/
def subRatingRows (w : World) (tid : Nat) (sd ed : Option Int)
    (progId subId : Nat) : List Nat :=
  (w.assessmentEpas.filter (fun r =>
    (w.assessments.any (fun a => a.id == r.assessmentId && gridScope tid sd ed a)) &&
    epaMappedToSub w progId subId r.epaId)).map (fun r => r.entrustmentLevel)

/-- The `avg_entrustment` aggregate of competency_grid_data (lines 587-589). -/
def gridSubAverage (w : World) (tid : Nat) (sd ed : Option Int)
    (progId subId : Nat) : Option ℚ :=
  ratAvg (subRatingRows w tid sd ed progId subId)

/-- `round(avg_entrustment, 2) if avg_entrustment else None`: what the JSON
reports (Python truthiness collapses both None and 0 to null). -/
def displayAvg (q : Option ℚ) : Option ℚ :=
  match q with
  | none => none
  | some v => if v = 0 then none else some (round2 v)

/-- The reported `average_entrustment` of one grid cell (line 608). -/
def gridSubAvgDisplayed (w : World) (tid : Nat) (sd ed : Option Int)
    (progId subId : Nat) : Option ℚ :=
  displayAvg (gridSubAverage w tid sd ed progId subId)

/-- The AssessmentEPA rows feeding one Sub-Competency average in
competency_progress_data (lines 443-458): the trainee's submitted
assessments (no date filter) and the EPAs mapped to the sub-competency in
the trainee's program. -/
def progressSubRows (w : World) (tid progId subId : Nat) : List Nat :=
  (w.assessmentEpas.filter (fun r =>
    (w.assessments.any (fun a =>
      a.id == r.assessmentId && a.traineeId == tid && a.status == Status.submitted)) &&
    epaMappedToSub w progId subId r.epaId)).map (fun r => r.entrustmentLevel)

/-- `avg_entrustment` for one sub-competency in competency_progress_data. -/
def progressSubAvg (w : World) (tid progId subId : Nat) : Option ℚ :=
  ratAvg (progressSubRows w tid progId subId)

/-- `competency.sub_competencies.all()`. -/
def subsOfCompetency (w : World) (compId : Nat) : List SubCompetencyRec :=
  w.subCompetencies.filter (fun s => s.coreCompetencyId == compId)

/-- The Core-Competency rollup loop of competency_progress_data (lines
438-477): `competency_total += avg; competency_count += 1` for every
sub-competency whose average is truthy, then `total / count` when
`count > 0` else None. -/
def progressCompAvg (w : World) (tid progId compId : Nat) : Option ℚ :=
  let acc := (subsOfCompetency w compId).foldl
    (fun acc sub =>
      match progressSubAvg w tid progId sub.id with
      | some v => if v = 0 then acc else (acc.1 + v, acc.2 + 1)
      | none => acc)
    ((0 : ℚ), (0 : Nat))
  if acc.2 > 0 then some (acc.1 / (acc.2 : ℚ)) else none

/-- Modelled from the spec's words (Sub-Competency → Core Competency
rollup): the unweighted arithmetic mean of the already-computed child
averages that have data; used to compare the code's rollups against. -/
def specUnweightedMean (l : List ℚ) : Option ℚ :=
  match l with
  | [] => none
  | _ => some (l.sum / (l.length : ℚ))

/-- The base assessment scope of program_performance_data (lines 66-90):
trainee in the program, shift_date in the rolling window
[today − 30·months, today], plus the optional cohort / trainee filters. -/
def perfScope (w : World) (progId : Nat) (today : Int) (months : Nat)
    (cohortF traineeF : Option Nat) (a : AssessmentRec) : Bool :=
  traineeProgram w a == some progId &&
  decide (today - 30 * (months : Int) ≤ a.shiftDate) &&
  decide (a.shiftDate ≤ today) &&
  (match cohortF with | none => true | some c => traineeCohort w a == some c) &&
  (match traineeF with | none => true | some t => a.traineeId == t)

def perfAssessments (w : World) (progId : Nat) (today : Int) (months : Nat)
    (cohortF traineeF : Option Nat) : List AssessmentRec :=
  w.assessments.filter (perfScope w progId today months cohortF traineeF)

/-- `assessment_epas__epa__sub_competencies__core_competency=competency`:
the row's EPA is mapped (via the join table) to some sub-competency of the
core competency. -/
def epaMappedToComp (w : World) (compId epaId : Nat) : Bool :=
  w.subCompetencyEpas.any (fun m => m.epaId == epaId &&
    (w.subCompetencies.any (fun s => s.id == m.subCompetencyId &&
      s.coreCompetencyId == compId)))

/-- The rows feeding `average_competency_level` in the competency breakdown
of program_performance_data (lines 131-147): Django reuses the filter join,
so the aggregate runs over the AssessmentEPA rows of in-scope assessments
that are mapped to the competency.  (When an EPA maps to several
sub-competencies of one competency the SQL join would duplicate its row;
the concrete worlds below map each EPA to exactly one sub-competency, where
all readings coincide.) -/
def perfCompRows (w : World) (progId : Nat) (today : Int) (months : Nat)
    (cohortF traineeF : Option Nat) (compId : Nat) : List Nat :=
  (w.assessmentEpas.filter (fun r =>
    ((perfAssessments w progId today months cohortF traineeF).any
      (fun a => a.id == r.assessmentId)) &&
    epaMappedToComp w compId r.epaId)).map (fun r => r.entrustmentLevel)

/-- `avg_level = ...['avg_score'] or 0` (line 138-140): the `or 0` collapses
the empty/NULL case to 0. -/
def perfCompAvg (w : World) (progId : Nat) (today : Int) (months : Nat)
    (cohortF traineeF : Option Nat) (compId : Nat) : ℚ :=
  match ratAvg (perfCompRows w progId today months cohortF traineeF compId) with
  | none => 0
  | some v => v

/-- The reported `average_competency_level`: `round(avg_level, 2)` — always
a number, never null (line 146). -/
def perfCompAvgDisplayed (w : World) (progId : Nat) (today : Int) (months : Nat)
    (cohortF traineeF : Option Nat) (compId : Nat) : ℚ :=
  round2 (perfCompAvg w progId today months cohortF traineeF compId)

/-- Modelled from the spec's words: the Sub-Competency average within an
already-scoped assessment list — rows of in-scope assessments whose EPA is
mapped (join table) to the sub-competency. -/
def scopeSubRows (w : World) (sq : List AssessmentRec) (subId : Nat) : List Nat :=
  (w.assessmentEpas.filter (fun r =>
    (sq.any (fun a => a.id == r.assessmentId)) &&
    (w.subCompetencyEpas.any (fun m =>
      m.subCompetencyId == subId && m.epaId == r.epaId)))).map
    (fun r => r.entrustmentLevel)

def scopeSubAvg (w : World) (sq : List AssessmentRec) (subId : Nat) : Option ℚ :=
  ratAvg (scopeSubRows w sq subId)

/-- One reported entry of `trends.monthly_entrustment` /
`monthly_assessments`. -/
structure MonthBucket where
  count : Nat
  averageEntrustment : ℚ
deriving DecidableEq, Repr

/-- One iteration of the monthly-trend loop of program_performance_data
(lines 174-196): bucket `i` (0 = most recent) spans
shift_date ∈ [today − 30(i+1), today − 30i) — a rolling 30-day window, not
a calendar month, and half-open at the upper end. -/
def monthAssessments (sq : List AssessmentRec) (today : Int) (i : Nat) :
    List AssessmentRec :=
  sq.filter (fun a =>
    decide (today - 30 * ((i : Int) + 1) ≤ a.shiftDate) &&
    decide (a.shiftDate < today - 30 * (i : Int)))

/-- Per-bucket count and `round((avg or 0), 2)` average (lines 181-196). -/
def monthBucket (w : World) (sq : List AssessmentRec) (today : Int) (i : Nat) :
    MonthBucket :=
  { count := (monthAssessments sq today i).length
    averageEntrustment :=
      round2 (match ratAvg ((w.assessmentEpas.filter (fun r =>
          (monthAssessments sq today i).any (fun a => a.id == r.assessmentId))).map
          (fun r => r.entrustmentLevel)) with
        | none => 0
        | some v => v) }

/-- The trend list: buckets built newest-first for i = 0..months−1, then
`reverse()`d to oldest-first (lines 198-199). -/
def monthlyTrend (w : World) (sq : List AssessmentRec) (today : Int)
    (months : Nat) : List MonthBucket :=
  ((List.range months).map (monthBucket w sq today)).reverse

lemma monthBucket_of_empty (w : World) (sq : List AssessmentRec)
    (today : Int) (i : Nat) (h : monthAssessments sq today i = []) :
    monthBucket w sq today i = { count := 0, averageEntrustment := 0 } := by
  unfold monthBucket
  rw [h]
  simp [ratAvg, round2_zero]

lemma mem_level_rows {l : List AssessmentEPARec} {f : AssessmentEPARec → Bool} {n : Nat}
    (hn : n ∈ (l.filter f).map (fun r => r.entrustmentLevel)) :
    ∃ r ∈ l, r.entrustmentLevel = n := by
  simp only [List.mem_map, List.mem_filter] at hn
  obtain ⟨r, ⟨hr, _⟩, hrn⟩ := hn
  exact ⟨r, hr, hrn⟩

lemma progressFold_eq (w : World) (tid progId : Nat)
    (subs : List SubCompetencyRec) (t0 : ℚ) (c0 : Nat)
    (hpos : ∀ s ∈ subs, ∀ v, progressSubAvg w tid progId s.id = some v → v ≠ 0) :
    subs.foldl
      (fun acc sub =>
        match progressSubAvg w tid progId sub.id with
        | some v => if v = 0 then acc else (acc.1 + v, acc.2 + 1)
        | none => acc) (t0, c0) =
      (t0 + (subs.filterMap (fun s => progressSubAvg w tid progId s.id)).sum,
        c0 + (subs.filterMap (fun s => progressSubAvg w tid progId s.id)).length) := by
  induction subs generalizing t0 c0 with
  | nil => simp
  | cons s t ih =>
      have hpos' : ∀ x ∈ t, ∀ v, progressSubAvg w tid progId x.id = some v → v ≠ 0 :=
        fun x hx => hpos x (List.mem_cons_of_mem s hx)
      simp only [List.foldl_cons, List.filterMap_cons]
      cases hs : progressSubAvg w tid progId s.id with
      | none =>
          simpa using ih t0 c0 hpos'
      | some v =>
          have hv : v ≠ 0 := hpos s (List.mem_cons_self s t) v hs
          simp only [List.sum_cons, List.length_cons]
          rw [if_neg hv]
          rw [ih (t0 + v) (c0 + 1) hpos']
          simp only [Prod.mk.injEq]
          constructor
          · ring
          · omega

lemma specUnweightedMean_eq_none_iff (l : List ℚ) :
    specUnweightedMean l = none ↔ l = [] := by
  cases l <;> simp [specUnweightedMean]

lemma progressSubRows_ge_one {w : World} {tid progId subId : Nat}
    (hWF : ∀ r ∈ w.assessmentEpas, 1 ≤ r.entrustmentLevel) :
    ∀ n ∈ progressSubRows w tid progId subId, 1 ≤ n := by
  intro n hn
  obtain ⟨r, hr, hrn⟩ := mem_level_rows hn
  rw [← hrn]
  exact hWF r hr

lemma progressCompAvg_eq_mean (w : World) (tid progId compId : Nat)
    (hWF : ∀ r ∈ w.assessmentEpas, 1 ≤ r.entrustmentLevel) :
    progressCompAvg w tid progId compId =
      specUnweightedMean ((subsOfCompetency w compId).filterMap
        (fun s => progressSubAvg w tid progId s.id)) := by
  have hpos : ∀ s ∈ subsOfCompetency w compId, ∀ v,
      progressSubAvg w tid progId s.id = some v → v ≠ 0 := by
    intro s _ v hv
    have h1 : 1 ≤ v := ratAvg_ge_one (progressSubRows_ge_one hWF) hv
    intro h0
    rw [h0] at h1
    norm_num at h1
  unfold progressCompAvg
  rw [progressFold_eq w tid progId _ 0 0 hpos]
  simp only [zero_add]
  cases hl : (subsOfCompetency w compId).filterMap
      (fun s => progressSubAvg w tid progId s.id) with
  | nil => simp [specUnweightedMean]
  | cons x xs => simp [specUnweightedMean]

/-- C5 (amended): in the trainee competency-progress endpoint the reported
Core-Competency average is the unweighted arithmetic mean of the child
Sub-Competency averages that have data, and it is invariant under any change
that preserves each child average (e.g. changing a rating count without
changing that sub-competency's average).  (The program-performance endpoint
computes its per-competency average directly from raw AssessmentEPA rows
instead — see the counterexample.) -/
theorem C5_core_avg_unweighted_mean
    (w : World) (tid progId compId : Nat)
    (hWF : ∀ r ∈ w.assessmentEpas, 1 ≤ r.entrustmentLevel) :
    progressCompAvg w tid progId compId =
      specUnweightedMean ((subsOfCompetency w compId).filterMap
        (fun s => progressSubAvg w tid progId s.id)) ∧
    ∀ w' : World, w'.subCompetencies = w.subCompetencies →
      (∀ r ∈ w'.assessmentEpas, 1 ≤ r.entrustmentLevel) →
      (∀ s ∈ subsOfCompetency w compId,
        progressSubAvg w' tid progId s.id = progressSubAvg w tid progId s.id) →
      progressCompAvg w' tid progId compId = progressCompAvg w tid progId compId := by
  refine ⟨progressCompAvg_eq_mean w tid progId compId hWF, ?_⟩
  intro w' hsubs hWF' hagree
  rw [progressCompAvg_eq_mean w' tid progId compId hWF',
    progressCompAvg_eq_mean w tid progId compId hWF]
  have hsubs' : subsOfCompetency w' compId = subsOfCompetency w compId := by
    unfold subsOfCompetency
    rw [hsubs]
  rw [hsubs']
  congr 1
  exact List.filterMap_congr (fun s hs => hagree s hs)

def c5World : World :=
  { users := [{ id := 2, role := Role.trainee, program := some 10, cohort := some 1 }],
    assessments :=
      [{ id := 1, traineeId := 2, evaluatorId := 3, shiftDate := 0, status := Status.submitted },
       { id := 2, traineeId := 2, evaluatorId := 3, shiftDate := 0, status := Status.submitted },
       { id := 3, traineeId := 2, evaluatorId := 3, shiftDate := 0, status := Status.submitted }],
    assessmentEpas :=
      [{ id := 1, assessmentId := 1, epaId := 1, entrustmentLevel := 1 },
       { id := 2, assessmentId := 2, epaId := 2, entrustmentLevel := 5 },
       { id := 3, assessmentId := 3, epaId := 2, entrustmentLevel := 5 }],
    epas := [{ id := 1, programId := 10 }, { id := 2, programId := 10 }],
    coreCompetencies := [{ id := 1, programId := 10 }],
    subCompetencies := [{ id := 1, programId := 10, coreCompetencyId := 1 },
      { id := 2, programId := 10, coreCompetencyId := 1 }],
    subCompetencyEpas := [{ id := 1, subCompetencyId := 1, epaId := 1 },
      { id := 2, subCompetencyId := 2, epaId := 2 }] }

/-- C5 counterexample: in program_performance_data the per-Core-Competency
average is ratings-weighted, not the mean of sub-competency averages.
Sub-competency 1 has one rating of 1 (average 1), sub-competency 2 has two
ratings of 5 (average 5); the unweighted mean is 3, but the endpoint reports
(1 + 5 + 5) / 3 = 11/3, so the claim is false for this reported average. -/
theorem C5_counterexample :
    perfCompAvg c5World 10 0 6 none none 1 = 11/3 ∧
    specUnweightedMean ((subsOfCompetency c5World 1).filterMap
      (fun s => scopeSubAvg c5World (perfAssessments c5World 10 0 6 none none) s.id)) =
      some 3 ∧
    (11/3 : ℚ) ≠ 3 := by
  refine ⟨?_, ?_, by norm_num⟩
  · have h : perfCompRows c5World 10 0 6 none none 1 = [1, 5, 5] := by decide
    unfold perfCompAvg
    rw [h]
    simp [ratAvg]
    norm_num
  · have hsubs : subsOfCompetency c5World 1 =
        [{ id := 1, programId := 10, coreCompetencyId := 1 },
         { id := 2, programId := 10, coreCompetencyId := 1 }] := by decide
    have h1 : scopeSubRows c5World (perfAssessments c5World 10 0 6 none none) 1 = [1] := by
      decide
    have h2 : scopeSubRows c5World (perfAssessments c5World 10 0 6 none none) 2 = [5, 5] := by
      decide
    have ha : scopeSubAvg c5World (perfAssessments c5World 10 0 6 none none) 1 = some 1 := by
      unfold scopeSubAvg
      rw [h1]
      simp [ratAvg]
    have hb : scopeSubAvg c5World (perfAssessments c5World 10 0 6 none none) 2 = some 5 := by
      unfold scopeSubAvg
      rw [h2]
      simp [ratAvg]
    rw [hsubs]
    simp only [List.filterMap_cons, ha, hb, List.filterMap_nil]
    simp [specUnweightedMean]
    norm_num

theorem C5_witness :
    progressCompAvg c5World 2 10 1 =
      specUnweightedMean ((subsOfCompetency c5World 1).filterMap
        (fun s => progressSubAvg c5World 2 10 s.id)) :=
  (C5_core_avg_unweighted_mean c5World 2 10 1 (by decide)).1

lemma subRatingRows_ge_one {w : World} {tid : Nat} {sd ed : Option Int}
    {progId subId : Nat}
    (hWF : ∀ r ∈ w.assessmentEpas, 1 ≤ r.entrustmentLevel) :
    ∀ n ∈ subRatingRows w tid sd ed progId subId, 1 ≤ n := by
  intro n hn
  obtain ⟨r, hr, hrn⟩ := mem_level_rows hn
  rw [← hrn]
  exact hWF r hr

lemma ratAvg_eq_none_iff (l : List Nat) : ratAvg l = none ↔ l = [] := by
  cases l <;> simp [ratAvg]

lemma displayAvg_eq_none_iff {q : Option ℚ} (h : ∀ v, q = some v → 1 ≤ v) :
    displayAvg q = none ↔ q = none := by
  cases q with
  | none => simp [displayAvg]
  | some v =>
      have h1 : 1 ≤ v := h v rfl
      have hv : v ≠ 0 := by
        intro h0
        rw [h0] at h1
        norm_num at h1
      simp [displayAvg, hv]

lemma displayAvg_pos {q : Option ℚ} (h : ∀ v, q = some v → 1 ≤ v) :
    ∀ v, displayAvg q = some v → 0 < v := by
  cases q with
  | none => intro v hv; cases hv
  | some u =>
      intro v hv
      have h1 : 1 ≤ u := h u rfl
      have hu : u ≠ 0 := by
        intro h0
        rw [h0] at h1
        norm_num at h1
      simp only [displayAvg, if_neg hu, Option.some.injEq] at hv
      rw [← hv]
      exact round2_pos h1

/-- C4 (amended): at the Sub-Competency level the reported average is null
exactly when no AssessmentEPA row matches, and a reported value is strictly
positive (never 0.0) — competency grid; likewise the progress endpoint's
Core-Competency average is null iff every child Sub-Competency lacks data.
The program-performance endpoint does NOT preserve the distinction: its
per-Core-Competency average and its monthly trend averages report 0 (a
plain number) when nothing matches. -/
theorem C4_no_data_vs_zero
    (w : World) (tid : Nat) (sd ed : Option Int) (progId subId compId : Nat)
    (today : Int) (months : Nat) (cohortF traineeF : Option Nat)
    (hWF : ∀ r ∈ w.assessmentEpas, 1 ≤ r.entrustmentLevel) :
    (gridSubAvgDisplayed w tid sd ed progId subId = none ↔
      subRatingRows w tid sd ed progId subId = []) ∧
    (∀ v, gridSubAvgDisplayed w tid sd ed progId subId = some v → 0 < v) ∧
    (progressCompAvg w tid progId compId = none ↔
      ∀ s ∈ subsOfCompetency w compId, progressSubAvg w tid progId s.id = none) ∧
    (perfCompRows w progId today months cohortF traineeF compId = [] →
      perfCompAvgDisplayed w progId today months cohortF traineeF compId = 0) ∧
    (∀ (sq : List AssessmentRec) (i : Nat), monthAssessments sq today i = [] →
      (monthBucket w sq today i).averageEntrustment = 0) := by
  refine ⟨?_, ?_, ?_, ?_, ?_⟩
  · unfold gridSubAvgDisplayed gridSubAverage
    rw [displayAvg_eq_none_iff
      (fun v hv => ratAvg_ge_one (subRatingRows_ge_one hWF) hv)]
    exact ratAvg_eq_none_iff _
  · unfold gridSubAvgDisplayed gridSubAverage
    exact displayAvg_pos (fun v hv => ratAvg_ge_one (subRatingRows_ge_one hWF) hv)
  · rw [progressCompAvg_eq_mean w tid progId compId hWF,
      specUnweightedMean_eq_none_iff, List.filterMap_eq_nil_iff]
  · intro h
    unfold perfCompAvgDisplayed perfCompAvg
    rw [h]
    simp [ratAvg, round2_zero]
  · intro sq i h
    rw [monthBucket_of_empty w sq today i h]

def c4World : World :=
  { users := [{ id := 2, role := Role.trainee, program := some 10, cohort := some 1 }],
    coreCompetencies := [{ id := 1, programId := 10 }],
    subCompetencies := [{ id := 1, programId := 10, coreCompetencyId := 1 }],
    epas := [{ id := 1, programId := 10 }],
    subCompetencyEpas := [{ id := 1, subCompetencyId := 1, epaId := 1 }] }

/-- C4 counterexample: with no matching data at all, the program-performance
competency breakdown reports `average_competency_level = 0` (the `or 0` at
analytics/views.py line 140), not null — the no-data-vs-zero distinction is
broken at the Core-Competency rollup of this endpoint. -/
theorem C4_counterexample :
    perfCompRows c4World 10 0 6 none none 1 = [] ∧
    perfCompAvgDisplayed c4World 10 0 6 none none 1 = 0 := by
  have h : perfCompRows c4World 10 0 6 none none 1 = [] := by decide
  refine ⟨h, ?_⟩
  unfold perfCompAvgDisplayed perfCompAvg
  rw [h]
  simp [ratAvg, round2_zero]

theorem C4_witness :
    gridSubAvgDisplayed c4World 2 none none 10 1 = none ↔
      subRatingRows c4World 2 none none 10 1 = [] :=
  (C4_no_data_vs_zero c4World 2 none none 10 1 1 0 6 none none (by decide)).1

/-- C8 (amended): the trend series consists of `months` rolling 30-day
buckets (not calendar months) of the scoped assessments, keyed by
shift_date, reported oldest-first; bucket j of the reported list is the
window [today − 30(months−j), today − 30(months−1−j)).  An empty bucket is
reported with count 0 and average 0 (present, but 0 rather than absent),
and an assessment whose shift_date equals the request date falls outside
every bucket (so the buckets do not partition the scoped set). -/
theorem C8_monthly_trend_buckets
    (w : World) (sq : List AssessmentRec) (today : Int) (months : Nat) :
    (monthlyTrend w sq today months).length = months ∧
    (∀ j, j < months →
      (monthlyTrend w sq today months)[j]? =
        some (monthBucket w sq today (months - 1 - j))) ∧
    (∀ (i : Nat) (a : AssessmentRec), a ∈ monthAssessments sq today i ↔
      (a ∈ sq ∧ today - 30 * ((i : Int) + 1) ≤ a.shiftDate ∧
        a.shiftDate < today - 30 * (i : Int))) ∧
    (∀ i, monthAssessments sq today i = [] →
      monthBucket w sq today i = { count := 0, averageEntrustment := 0 }) ∧
    (∀ (i : Nat) (a : AssessmentRec), a.shiftDate = today →
      a ∉ monthAssessments sq today i) := by
  refine ⟨?_, ?_, ?_, fun i h => monthBucket_of_empty w sq today i h, ?_⟩
  · simp [monthlyTrend]
  · intro j hj
    unfold monthlyTrend
    have hlen : j < ((List.range months).map (monthBucket w sq today)).length := by
      simpa using hj
    rw [List.getElem?_reverse hlen]
    simp only [List.length_map, List.length_range]
    rw [List.getElem?_map, List.getElem?_range (by omega)]
    rfl
  · intro i a
    unfold monthAssessments
    simp [List.mem_filter, and_assoc]
  · intro i a hsd hmem
    unfold monthAssessments at hmem
    simp only [List.mem_filter, Bool.and_eq_true, decide_eq_true_eq] at hmem
    have hi : (0 : Int) ≤ (i : Int) := Int.natCast_nonneg i
    rw [hsd] at hmem
    have h2 := hmem.2.2
    linarith

def c8Assessment : AssessmentRec :=
  { id := 1, traineeId := 2, evaluatorId := 3, shiftDate := 0,
    status := Status.submitted }

def c8World : World :=
  { users := [{ id := 2, role := Role.trainee, program := some 10, cohort := some 1 }],
    assessments := [c8Assessment] }

/-- C8 counterexample: with months = 1 and one scoped assessment whose
shift_date equals the request date, the assessment is in the overall scope
but in no bucket (the buckets are half-open 30-day windows, so they do not
partition the scoped set), and the only — empty — bucket carries average 0,
a number, instead of the claimed absent average. -/
theorem C8_counterexample :
    c8Assessment ∈ perfAssessments c8World 10 0 6 none none ∧
    c8Assessment ∉ monthAssessments (perfAssessments c8World 10 0 6 none none) 0 0 ∧
    monthlyTrend c8World (perfAssessments c8World 10 0 6 none none) 0 1 =
      [{ count := 0, averageEntrustment := 0 }] := by
  refine ⟨by decide, by decide, ?_⟩
  have h : monthAssessments (perfAssessments c8World 10 0 6 none none) 0 0 = [] := by
    decide
  unfold monthlyTrend
  rw [show List.range 1 = [0] from by rw [List.range_succ, List.range_zero]; rfl]
  simp only [List.map_cons, List.map_nil]
  rw [monthBucket_of_empty c8World _ 0 0 h]
  rfl

theorem C8_witness :
    (monthlyTrend c8World (perfAssessments c8World 10 0 6 none none) 0 1)[0]? =
      some (monthBucket c8World (perfAssessments c8World 10 0 6 none none) 0 0) :=
  (C8_monthly_trend_buckets c8World (perfAssessments c8World 10 0 6 none none) 0 1).2.1 0
    (by norm_num)

end ShiftNotes
